import Mathlib

/-!
Shallow embedding of the `ai_commit` CLI core (Rust sources `src/lib.rs`,
`src/ai_commit.rs`, `src/cli.rs`, `src/config.rs`).  Pure logic (option
resolution, request construction, response handling, config display) is
translated to Lean functions; external effects (git subprocess, HTTP
transport, file system) are modelled as explicit inputs, and the observable
effects of an invocation are recorded in a trace structure.
-/

namespace AiCommit

/-- Stored configuration record, translated from `Config` in `src/config.rs`:
five independently optional string fields. -/
structure Config where
  api_key : Option String
  url : Option String
  model : Option String
  language : Option String
  prompt : Option String
  deriving DecidableEq

/-- Command-line arguments, translated from `Cli` in `src/cli.rs`.  Note the
CLI surface has flags only for language, prompt, url and model; there is no
CLI flag for the api_key.  The `command` subcommand field is irrelevant to
`run_generate` and omitted here (it is matched away in `main` before
`run_generate` is called); the hidden `msg` and `gen_completion` flags are
kept for fidelity, unused by the generate path. -/
structure Cli where
  language : Option String
  prompt : Option String
  url : Option String
  model : Option String
  msg : Bool
  gen_completion : Option (Option String)
  deriving DecidableEq

/-- A chat message, translated from `Message` in `src/ai_commit.rs`. -/
structure Message where
  role : String
  content : String
  deriving DecidableEq

/-- Request payload, translated from `OpenAiRequest` in `src/ai_commit.rs`. -/
structure OpenAiRequest where
  model : String
  messages : List Message
  deriving DecidableEq

/-- One response choice, translated from `Choice` in `src/ai_commit.rs`. -/
structure Choice where
  message : Message
  deriving DecidableEq

/-- Response payload, translated from `OpenAiResponse` in
`src/ai_commit.rs`. -/
structure OpenAiResponse where
  choices : List Choice
  deriving DecidableEq

/-- Resolution of the language parameter, translated from `src/lib.rs`:
`args.language.or(config.language).unwrap_or_else(|| "en".to_string())`. -/
def resolve_language (args : Cli) (config : Config) : String :=
  (args.language.or config.language).getD "en"

/-- Resolution of the prompt parameter, translated from `src/lib.rs`:
`args.prompt.or(config.prompt).unwrap_or_default()`. -/
def resolve_prompt (args : Cli) (config : Config) : String :=
  (args.prompt.or config.prompt).getD ""

/-- Resolution of the url parameter, translated from `src/lib.rs`:
`args.url.or(config.url).unwrap_or_else(|| "https://...".to_string())`. -/
def resolve_url (args : Cli) (config : Config) : String :=
  (args.url.or config.url).getD "https://api.openai.com/v1/chat/completions"

/-- Resolution of the model parameter, translated from `src/lib.rs`:
`args.model.or(config.model).unwrap_or_else(|| "gpt-3.5-turbo".to_string())`. -/
def resolve_model (args : Cli) (config : Config) : String :=
  (args.model.or config.model).getD "gpt-3.5-turbo"

/-- Modelled from the spec: the per-field precedence selector described in
section 4.1 ("CLI flag value (if provided) > stored config value (if
present) > built-in default"), written directly from the spec's words for a
refinement comparison against the source-derived `resolve_*` functions. -/
def spec_pick (cli stored : Option String) (dflt : String) : String :=
  match cli with
  | some v => v
  | none =>
    match stored with
    | some w => w
    | none => dflt

/-- The system prompt, translated from the `format!` literal in
`generate_commit_message` (`src/ai_commit.rs`); the Rust backslash line
continuation joins the two literal lines with the single space preceding the
backslash. -/
def system_prompt (language prompt : String) : String :=
  "You are a helpful assistant that generates commit messages in " ++ language ++
    ". The user will provide a git diff, and you should generate a concise and informative commit message. " ++
    prompt

/-- The user prompt, translated from
`format!("Here is the git diff:\n```\n{}\n```", diff)` in
`src/ai_commit.rs`. -/
def user_prompt (diff : String) : String :=
  "Here is the git diff:\n```\n" ++ diff ++ "\n```"

/-- Request construction, translated from the `OpenAiRequest` literal in
`generate_commit_message` (`src/ai_commit.rs`): the model string plus the
two-element message vector `[system, user]`. -/
def buildOpenAiRequest (diff language prompt model : String) : OpenAiRequest :=
  { model := model
    messages :=
      [ { role := "system", content := system_prompt language prompt }
      , { role := "user", content := user_prompt diff } ] }

theorem or_getD_eq_spec_pick (a b : Option String) (d : String) :
    (a.or b).getD d = spec_pick a b d := by
  cases a <;> cases b <;> rfl

/-! ### JSON parsing

`generate_commit_message` parses the response body with
`serde_json::from_str::<OpenAiResponse>`.  serde_json is an external
library; we model its documented behaviour: a standard JSON grammar
(objects, arrays, strings with escapes, numbers kept as raw tokens,
booleans, null) followed by a structural decode into `OpenAiResponse`
(string fields required, unknown fields ignored).  Surrogate-pair
combination in `\u` escapes and strict number syntax are not modelled;
no claim depends on them. -/

/-- JSON value tree. -/
inductive Json where
  | null : Json
  | bool (b : Bool) : Json
  | num (raw : String) : Json
  | str (s : String) : Json
  | arr (elems : List Json) : Json
  | obj (fields : List (String × Json)) : Json

/-- JSON insignificant whitespace. -/
def jsonWs (c : Char) : Bool :=
  c = ' ' || c = '\n' || c = '\r' || c = '\t'

/-- Drop leading JSON whitespace. -/
def skipWs : List Char → List Char
  | [] => []
  | c :: cs => if jsonWs c then skipWs cs else c :: cs

/-- Hex digit value. -/
def hexVal (c : Char) : Option Nat :=
  if '0' ≤ c ∧ c ≤ '9' then some (c.toNat - '0'.toNat)
  else if 'a' ≤ c ∧ c ≤ 'f' then some (c.toNat - 'a'.toNat + 10)
  else if 'A' ≤ c ∧ c ≤ 'F' then some (c.toNat - 'A'.toNat + 10)
  else none

/-- Parse the remainder of a JSON string literal (opening quote already
consumed), returning the decoded string and the input after the closing
quote. -/
def parseStringRest : Nat → List Char → Except String (String × List Char)
  | 0, _ => .error "string literal too long"
  | _ + 1, [] => .error "unterminated string"
  | fuel + 1, c :: cs =>
    if c = '"' then .ok ("", cs)
    else if c = '\\' then
      match cs with
      | [] => .error "unterminated escape"
      | e :: cs2 =>
        let cont := fun (ch : Char) (rest : List Char) =>
          match parseStringRest fuel rest with
          | .ok (s, r) => Except.ok (String.mk (ch :: s.data), r)
          | .error m => Except.error m
        if e = '"' then cont '"' cs2
        else if e = '\\' then cont '\\' cs2
        else if e = '/' then cont '/' cs2
        else if e = 'b' then cont (Char.ofNat 8) cs2
        else if e = 'f' then cont (Char.ofNat 12) cs2
        else if e = 'n' then cont '\n' cs2
        else if e = 'r' then cont '\r' cs2
        else if e = 't' then cont '\t' cs2
        else if e = 'u' then
          match cs2 with
          | h1 :: h2 :: h3 :: h4 :: cs3 =>
            match hexVal h1, hexVal h2, hexVal h3, hexVal h4 with
            | some a, some b, some c4, some d =>
              cont (Char.ofNat (((a * 16 + b) * 16 + c4) * 16 + d)) cs3
            | _, _, _, _ => .error "invalid unicode escape"
          | _ => .error "invalid unicode escape"
        else .error "invalid escape"
    else
      match parseStringRest fuel cs with
      | .ok (s, r) => .ok (String.mk (c :: s.data), r)
      | .error m => .error m

/-- Characters that may appear in a JSON number token. -/
def isNumChar (c : Char) : Bool :=
  c.isDigit || c = '-' || c = '+' || c = '.' || c = 'e' || c = 'E'

/-- Split off the longest leading run of number characters. -/
def spanNum : List Char → List Char × List Char
  | [] => ([], [])
  | c :: cs =>
    if isNumChar c then
      let p := spanNum cs
      (c :: p.1, p.2)
    else ([], c :: cs)

mutual

/-- Parse one JSON value; returns the value and the remaining input. -/
def parseVal : Nat → List Char → Except String (Json × List Char)
  | 0, _ => .error "input too deeply nested"
  | fuel + 1, input =>
    match skipWs input with
    | [] => .error "unexpected end of input"
    | c :: cs =>
      if c = '"' then
        match parseStringRest (cs.length + 1) cs with
        | .ok (s, r) => .ok (.str s, r)
        | .error m => .error m
      else if c = '\x7b' then parseObjBody fuel cs
      else if c = '[' then parseArrBody fuel cs
      else if c = 't' then
        match cs with
        | 'r' :: 'u' :: 'e' :: r => .ok (.bool true, r)
        | _ => .error "expected true"
      else if c = 'f' then
        match cs with
        | 'a' :: 'l' :: 's' :: 'e' :: r => .ok (.bool false, r)
        | _ => .error "expected false"
      else if c = 'n' then
        match cs with
        | 'u' :: 'l' :: 'l' :: r => .ok (.null, r)
        | _ => .error "expected null"
      else if c.isDigit || c = '-' then
        let p := spanNum (c :: cs)
        .ok (.num (String.mk p.1), p.2)
      else .error "unexpected character"

/-- Parse an object body (opening brace already consumed). -/
def parseObjBody : Nat → List Char → Except String (Json × List Char)
  | 0, _ => .error "input too deeply nested"
  | fuel + 1, input =>
    match skipWs input with
    | [] => .error "unterminated object"
    | c :: cs =>
      if c = '\x7d' then .ok (.obj [], cs)
      else
        match parseFields fuel (c :: cs) with
        | .ok (fs, r) => .ok (.obj fs, r)
        | .error m => .error m

/-- Parse one or more comma-separated object fields up to the closing
brace. -/
def parseFields : Nat → List Char → Except String (List (String × Json) × List Char)
  | 0, _ => .error "input too deeply nested"
  | fuel + 1, input =>
    match skipWs input with
    | '"' :: cs =>
      match parseStringRest (cs.length + 1) cs with
      | .error m => .error m
      | .ok (key, r1) =>
        match skipWs r1 with
        | ':' :: r2 =>
          match parseVal fuel r2 with
          | .error m => .error m
          | .ok (v, r3) =>
            match skipWs r3 with
            | ',' :: r4 =>
              match parseFields fuel r4 with
              | .ok (fs, r5) => .ok ((key, v) :: fs, r5)
              | .error m => .error m
            | c :: r4 =>
              if c = '\x7d' then .ok ([(key, v)], r4)
              else .error "expected comma or end of object"
            | [] => .error "unterminated object"
        | _ => .error "expected colon"
    | _ => .error "expected string key"

/-- Parse an array body (opening bracket already consumed). -/
def parseArrBody : Nat → List Char → Except String (Json × List Char)
  | 0, _ => .error "input too deeply nested"
  | fuel + 1, input =>
    match skipWs input with
    | [] => .error "unterminated array"
    | c :: cs =>
      if c = ']' then .ok (.arr [], cs)
      else
        match parseItems fuel (c :: cs) with
        | .ok (xs, r) => .ok (.arr xs, r)
        | .error m => .error m

/-- Parse one or more comma-separated array items up to the closing
bracket. -/
def parseItems : Nat → List Char → Except String (List Json × List Char)
  | 0, _ => .error "input too deeply nested"
  | fuel + 1, input =>
    match parseVal fuel input with
    | .error m => .error m
    | .ok (v, r) =>
      match skipWs r with
      | ',' :: r2 =>
        match parseItems fuel r2 with
        | .ok (xs, r3) => .ok (v :: xs, r3)
        | .error m => .error m
      | c :: r2 =>
        if c = ']' then .ok ([v], r2)
        else .error "expected comma or end of array"
      | [] => .error "unterminated array"

end

/-- Parse a complete JSON document: one value plus trailing whitespace. -/
def parseJsonText (s : String) : Except String Json :=
  match parseVal (s.length + 1) s.data with
  | .error m => .error m
  | .ok (v, rest) =>
    match skipWs rest with
    | [] => .ok v
    | _ => .error "trailing characters"

/-- First value bound to a key in a JSON object field list. -/
def lookupField (fields : List (String × Json)) (key : String) : Option Json :=
  match fields with
  | [] => none
  | (k, v) :: rest => if k = key then some v else lookupField rest key

/-- Decode a `Message`: object with string fields `role` and `content`. -/
def decodeMessage : Json → Except String Message
  | .obj fields =>
    match lookupField fields "role", lookupField fields "content" with
    | some (.str role), some (.str content) => .ok { role := role, content := content }
    | _, _ => .error "invalid message object"
  | _ => .error "expected message object"

/-- Decode a `Choice`: object with a `message` field. -/
def decodeChoice : Json → Except String Choice
  | .obj fields =>
    match lookupField fields "message" with
    | some j =>
      match decodeMessage j with
      | .ok m => .ok { message := m }
      | .error e => .error e
    | none => .error "missing field message"
  | _ => .error "expected choice object"

/-- Decode a list of choices, failing on the first invalid element. -/
def decodeChoices : List Json → Except String (List Choice)
  | [] => .ok []
  | j :: rest =>
    match decodeChoice j with
    | .error e => .error e
    | .ok c =>
      match decodeChoices rest with
      | .ok cs => .ok (c :: cs)
      | .error e => .error e

/-- Decode an `OpenAiResponse`: object with a `choices` array field. -/
def decodeOpenAiResponse : Json → Except String OpenAiResponse
  | .obj fields =>
    match lookupField fields "choices" with
    | some (.arr xs) =>
      match decodeChoices xs with
      | .ok cs => .ok { choices := cs }
      | .error e => .error e
    | _ => .error "missing or invalid field choices"
  | _ => .error "expected response object"

/-- Model of `serde_json::from_str::<OpenAiResponse>` as used in
`src/ai_commit.rs`: parse the body as JSON, then decode against the
`OpenAiResponse` schema. -/
def parseOpenAiResponse (s : String) : Except String OpenAiResponse :=
  match parseJsonText s with
  | .ok j => decodeOpenAiResponse j
  | .error e => .error e

/-! ### Response handling -/

/-- An HTTP response as observed by `generate_commit_message` after the
transport succeeded: the status code and the full body text. -/
structure HttpResponse where
  status : Nat
  body : String
  deriving DecidableEq

/-- `reqwest::StatusCode::is_success`: status in 200..=299. -/
def statusIsSuccess (status : Nat) : Bool :=
  200 ≤ status && status < 300

/-- Response handling of `generate_commit_message` (`src/ai_commit.rs`),
parameterized over the body parser so that the non-2xx branch's independence
from parsing is expressible.  `StatusCode`'s `Display` is modelled as the
numeric code.  The error channel is `String`, exactly as in the source
(`Result<String, String>` with `format!` messages). -/
def handleResponseWith (parse : String → Except String OpenAiResponse)
    (resp : HttpResponse) : Except String String :=
  if statusIsSuccess resp.status then
    match parse resp.body with
    | .ok response_json =>
      match response_json.choices with
      | [] => .error "API response is empty."
      | c :: _ => .ok c.message.content
    | .error e =>
      .error ("Failed to parse JSON response: " ++ e ++ ". \nRaw response: " ++ resp.body)
  else
    .error ("API request failed with status " ++ toString resp.status ++
      ". \nResponse: " ++ resp.body)

/-- Response handling with the serde_json model plugged in: the pure part of
`generate_commit_message` after the request is sent. -/
def handleResponse : HttpResponse → Except String String :=
  handleResponseWith parseOpenAiResponse

/-! ### The generate path (`run_generate` in `src/lib.rs`)

External collaborators are modelled as inputs: `diff` is what
`get_git_diff()` would return, `resp` is what the endpoint would answer.
The observable effects are recorded in a trace: lines printed to stdout and
stderr, whether the git subprocess was invoked, every network call (url,
bearer token, request payload), and the process exit status contributed by
the path taken.  `run_generate` returns `()` on every path and `main`
(`src/main.rs`) never sets a nonzero exit status, so every branch records
exit code 0. -/

/-- Observable effects of one `run_generate` invocation. -/
structure RunTrace where
  stdoutLines : List String
  stderrLines : List String
  gitDiffCalled : Bool
  networkCalls : List (String × String × OpenAiRequest)
  exitCode : Nat
  deriving DecidableEq

/-- The guidance printed when no API key is stored (`src/lib.rs`). -/
def missingKeyMessage : String :=
  "API key not set. Please run `ai_commit config set-api-key <YOUR_KEY>`"

/-- The message printed when the staged diff is empty (`src/lib.rs`). -/
def noStagedChangesMessage : String :=
  "No staged changes to commit."

/-- Translation of `run_generate` (`src/lib.rs`): check the stored api_key,
resolve the four optional parameters, fetch the staged diff, short-circuit
when it is empty, else send the request and print the result or the
error. -/
def run_generate (args : Cli) (config : Config) (diff : String)
    (resp : HttpResponse) : RunTrace :=
  match config.api_key with
  | none =>
    { stdoutLines := []
      stderrLines := [missingKeyMessage]
      gitDiffCalled := false
      networkCalls := []
      exitCode := 0 }
  | some api_key =>
    let language := resolve_language args config
    let prompt := resolve_prompt args config
    let url := resolve_url args config
    let model := resolve_model args config
    if diff.isEmpty then
      { stdoutLines := [noStagedChangesMessage]
        stderrLines := []
        gitDiffCalled := true
        networkCalls := []
        exitCode := 0 }
    else
      let request := buildOpenAiRequest diff language prompt model
      match handleResponse resp with
      | .ok commit_message =>
        { stdoutLines := [commit_message]
          stderrLines := []
          gitDiffCalled := true
          networkCalls := [(url, api_key, request)]
          exitCode := 0 }
      | .error e =>
        { stdoutLines := []
          stderrLines := ["Error generating commit message:\n" ++ e]
          gitDiffCalled := true
          networkCalls := [(url, api_key, request)]
          exitCode := 0 }

/-! ### Config subcommand (`handle_config_command` in `src/lib.rs`) -/

/-- Config subcommands, translated from `ConfigCmd` in `src/cli.rs`. -/
inductive ConfigCmd where
  | SetApiKey (key : String)
  | SetUrl (url : String)
  | SetModel (model : String)
  | SetLanguage (lang : String)
  | SetPrompt (prompt : String)
  | Show
  deriving DecidableEq

/-- The lines the `Show` branch prints after the configuration-file path
line (that first line comes from `get_config_path()`, a file-system
collaborator, and does not depend on the configuration record). -/
def configShowLines (config : Config) : List String :=
  ["---"]
  ++ [match config.api_key with
      | some _ => "api_key = [set]"
      | none => "api_key = [not set]"]
  ++ (match config.url with
      | some url => ["url = \"" ++ url ++ "\""]
      | none => [])
  ++ (match config.model with
      | some model => ["model = \"" ++ model ++ "\""]
      | none => [])
  ++ (match config.language with
      | some language => ["language = \"" ++ language ++ "\""]
      | none => [])
  ++ (match config.prompt with
      | some prompt => ["prompt = \"" ++ prompt ++ "\""]
      | none => [])
  ++ ["---"]

/-- Translation of `handle_config_command` (`src/lib.rs`): the lines printed
to stdout (for `Show`, the lines after the path line) and the configuration
as persisted by `save_config` afterwards. -/
def handle_config_command (cmd : ConfigCmd) (config : Config) :
    List String × Config :=
  match cmd with
  | .SetApiKey key =>
    (["API key set successfully."], { config with api_key := some key })
  | .SetUrl url =>
    (["API URL set to: " ++ url], { config with url := some url })
  | .SetModel model =>
    (["Default model set to: " ++ model], { config with model := some model })
  | .SetLanguage lang =>
    (["Default language set to: " ++ lang], { config with language := some lang })
  | .SetPrompt prompt =>
    (["Default prompt set."], { config with prompt := some prompt })
  | .Show => (configShowLines config, config)

/-! ### Concrete fixtures used by the spec's examples -/

/-- The 200-response body from the spec's example:
`{"choices":[{"message":{"role":"assistant","content":"fix: correct off-by-one"}}]}`. -/
def okChoiceBody : String :=
  "\x7b\"choices\":[\x7b\"message\":\x7b\"role\":\"assistant\",\"content\":\"fix: correct off-by-one\"\x7d\x7d]\x7d"

/-- The 401-response body from the spec's example: `{"error":"invalid key"}`. -/
def invalidKeyBody : String :=
  "\x7b\"error\":\"invalid key\"\x7d"

/-- A CLI record with no overrides. -/
def cliNone : Cli :=
  { language := none, prompt := none, url := none, model := none
    msg := false, gen_completion := none }

/-- An empty stored configuration. -/
def configNone : Config :=
  { api_key := none, url := none, model := none, language := none, prompt := none }

/-- A stored configuration holding only an api_key. -/
def configWithKey : Config :=
  { api_key := some "SECRET", url := none, model := none, language := none, prompt := none }

/-! ### Claim theorems -/

/-- C1: for each of the fields language, prompt, url and model, the resolved
effective parameter equals the CLI value when the CLI override is present,
else the stored config value when present, else the built-in default
(`"en"`, `""`, `"https://api.openai.com/v1/chat/completions"`,
`"gpt-3.5-turbo"`), for every combination of present/absent sources: the
source-derived resolvers coincide with the spec's precedence selector. -/
theorem resolve_matches_spec_precedence (args : Cli) (config : Config) :
    resolve_language args config = spec_pick args.language config.language "en" ∧
    resolve_prompt args config = spec_pick args.prompt config.prompt "" ∧
    resolve_url args config =
      spec_pick args.url config.url "https://api.openai.com/v1/chat/completions" ∧
    resolve_model args config = spec_pick args.model config.model "gpt-3.5-turbo" :=
  ⟨or_getD_eq_spec_pick _ _ _, or_getD_eq_spec_pick _ _ _,
   or_getD_eq_spec_pick _ _ _, or_getD_eq_spec_pick _ _ _⟩

/-- C2: for every input, the request built by `generate_commit_message`
carries the chosen model and exactly two messages in order: a "system"
message holding the literal template with language and prompt substituted
verbatim, then a "user" message holding the fenced diff text verbatim. -/
theorem buildOpenAiRequest_two_messages (diff language prompt model : String) :
    (buildOpenAiRequest diff language prompt model).model = model ∧
    (buildOpenAiRequest diff language prompt model).messages =
      [ { role := "system"
          content := "You are a helpful assistant that generates commit messages in " ++
            language ++
            ". The user will provide a git diff, and you should generate a concise and informative commit message. " ++
            prompt }
      , { role := "user"
          content := "Here is the git diff:\n```\n" ++ diff ++ "\n```" } ] :=
  ⟨rfl, rfl⟩

/-- C3: for every 2xx response whose body parses to the `OpenAiResponse`
schema, `generate_commit_message` fails with the empty-choices error when
`choices` is empty and otherwise returns the first choice's message content
unmodified; in particular the spec's 200 example returns exactly
"fix: correct off-by-one". -/
theorem handleResponse_success_first_choice (status : Nat) (body : String)
    (r : OpenAiResponse) (hs : statusIsSuccess status = true)
    (hp : parseOpenAiResponse body = .ok r) :
    (r.choices = [] →
      handleResponse { status := status, body := body } = .error "API response is empty.") ∧
    (∀ c rest, r.choices = c :: rest →
      handleResponse { status := status, body := body } = .ok c.message.content) ∧
    handleResponse { status := 200, body := okChoiceBody } = .ok "fix: correct off-by-one" := by
  refine ⟨?_, ?_, rfl⟩
  · intro h
    simp [handleResponse, handleResponseWith, hs, hp, h]
  · intro c rest h
    simp [handleResponse, handleResponseWith, hs, hp, h]

theorem handleResponse_success_first_choice_witness :
    handleResponse { status := 200, body := okChoiceBody } = .ok "fix: correct off-by-one" :=
  (handleResponse_success_first_choice 200 okChoiceBody
      { choices := [ { message := { role := "assistant", content := "fix: correct off-by-one" } } ] }
      rfl rfl).2.1
    { message := { role := "assistant", content := "fix: correct off-by-one" } } [] rfl

/-- C4: `run_generate` takes the missing-api-key branch (guidance printed to
stderr, no network call, no diff fetch) exactly when the stored api_key is
absent — the CLI surface (`Cli`) has no api-key flag, so CLI absence always
holds. -/
theorem run_generate_missing_api_key (args : Cli) (config : Config)
    (diff : String) (resp : HttpResponse) :
    (config.api_key = none ↔
      run_generate args config diff resp =
        { stdoutLines := [], stderrLines := [missingKeyMessage], gitDiffCalled := false,
          networkCalls := [], exitCode := 0 }) ∧
    (config.api_key = none →
      (run_generate args config diff resp).networkCalls = [] ∧
      (run_generate args config diff resp).gitDiffCalled = false ∧
      (run_generate args config diff resp).stderrLines = [missingKeyMessage]) := by
  constructor
  · constructor
    · intro h
      simp [run_generate, h]
    · intro heq
      cases h : config.api_key with
      | none => rfl
      | some k =>
        exfalso
        have hg : (run_generate args config diff resp).gitDiffCalled = true := by
          cases hd : diff.isEmpty <;> cases hr : handleResponse resp <;>
            simp [run_generate, h, hd, hr]
        rw [heq] at hg
        simp at hg
  · intro h
    simp [run_generate, h]

theorem run_generate_missing_api_key_witness :
    (run_generate cliNone configNone "" { status := 200, body := "" }).networkCalls = [] ∧
    (run_generate cliNone configNone "" { status := 200, body := "" }).gitDiffCalled = false ∧
    (run_generate cliNone configNone "" { status := 200, body := "" }).stderrLines =
      [missingKeyMessage] :=
  (run_generate_missing_api_key cliNone configNone "" { status := 200, body := "" }).2 rfl

/-- C5: with an api_key resolved, an empty staged diff makes `run_generate`
print the no-staged-changes message, perform zero network calls and end as a
success no-op (exit code 0), for every CLI, config and pending response. -/
theorem run_generate_empty_diff_noop (args : Cli) (c : Config) (k : String)
    (resp : HttpResponse) :
    run_generate args { c with api_key := some k } "" resp =
      { stdoutLines := [noStagedChangesMessage], stderrLines := [], gitDiffCalled := true,
        networkCalls := [], exitCode := 0 } :=
  rfl

/-- C6: every non-2xx response makes `generate_commit_message` fail with the
bad-status error carrying the status code and the raw body, and the non-2xx
branch never consults the body parser (the outcome is the same for every
parser); the spec's 401 example carries status 401 and a body containing
"invalid key". -/
theorem handleResponse_bad_status (status : Nat) (body : String)
    (h : statusIsSuccess status = false) :
    handleResponse { status := status, body := body } =
      .error ("API request failed with status " ++ toString status ++
        ". \nResponse: " ++ body) ∧
    (∀ p₁ p₂ : String → Except String OpenAiResponse,
      handleResponseWith p₁ { status := status, body := body } =
        handleResponseWith p₂ { status := status, body := body }) ∧
    handleResponse { status := 401, body := invalidKeyBody } =
      .error ("API request failed with status 401. \nResponse: " ++ invalidKeyBody) ∧
    (∃ s₁ s₂, handleResponse { status := 401, body := invalidKeyBody } =
      .error (s₁ ++ "invalid key" ++ s₂)) := by
  refine ⟨?_, ?_, rfl,
    ⟨"API request failed with status 401. \nResponse: \x7b\"error\":\"", "\"\x7d", rfl⟩⟩
  · simp [handleResponse, handleResponseWith, h]
  · intro p₁ p₂
    simp [handleResponseWith, h]

theorem handleResponse_bad_status_witness :
    handleResponse { status := 401, body := invalidKeyBody } =
      .error ("API request failed with status 401. \nResponse: " ++ invalidKeyBody) :=
  (handleResponse_bad_status 401 invalidKeyBody rfl).2.2.1

/-- C7: every 2xx response whose body fails to parse against the
`OpenAiResponse` schema makes `generate_commit_message` fail with the
parse-failure error carrying the parser's error and the raw body; the spec's
"not json" example carries the raw body. -/
theorem handleResponse_parse_failure (status : Nat) (body e : String)
    (hs : statusIsSuccess status = true)
    (hp : parseOpenAiResponse body = .error e) :
    handleResponse { status := status, body := body } =
      .error ("Failed to parse JSON response: " ++ e ++ ". \nRaw response: " ++ body) ∧
    handleResponse { status := 200, body := "not json" } =
      .error ("Failed to parse JSON response: expected null. \nRaw response: not json") := by
  refine ⟨?_, rfl⟩
  simp [handleResponse, handleResponseWith, hs, hp]

theorem handleResponse_parse_failure_witness :
    handleResponse { status := 200, body := "not json" } =
      .error ("Failed to parse JSON response: " ++ "expected null" ++
        ". \nRaw response: " ++ "not json") :=
  (handleResponse_parse_failure 200 "not json" "expected null" rfl rfl).1

/-- C8 counterexample: at a concrete invocation whose generation fails (401
response), the error is printed to stderr yet the recorded exit status is 0,
refuting "exit status is nonzero exactly when a generation error
occurred". -/
theorem run_generate_error_exit_zero_cex :
    (run_generate cliNone configWithKey "x" { status := 401, body := "oops" }).stderrLines =
      ["Error generating commit message:\nAPI request failed with status 401. \nResponse: oops"] ∧
    (run_generate cliNone configWithKey "x" { status := 401, body := "oops" }).exitCode = 0 :=
  ⟨rfl, rfl⟩

/-- C8 amended: the process exit status is zero on every invocation,
including generation failures and the no-staged-changes no-op; generation
errors are printed to the error stream. -/
theorem run_generate_exit_code_always_zero (args : Cli) (config : Config)
    (diff : String) (resp : HttpResponse) :
    (run_generate args config diff resp).exitCode = 0 ∧
    (∀ k e, config.api_key = some k → diff.isEmpty = false →
      handleResponse resp = .error e →
      (run_generate args config diff resp).stderrLines =
        ["Error generating commit message:\n" ++ e]) := by
  constructor
  · cases h : config.api_key with
    | none => simp [run_generate, h]
    | some k =>
      cases hd : diff.isEmpty <;> cases hr : handleResponse resp <;>
        simp [run_generate, h, hd, hr]
  · intro k e hk hd he
    simp [run_generate, hk, hd, he]

theorem run_generate_exit_code_always_zero_witness :
    (run_generate cliNone configWithKey "x" { status := 401, body := "oops" }).stderrLines =
      ["Error generating commit message:\n" ++
        "API request failed with status 401. \nResponse: oops"] :=
  (run_generate_exit_code_always_zero cliNone configWithKey "x"
      { status := 401, body := "oops" }).2 "SECRET"
    "API request failed with status 401. \nResponse: oops" rfl rfl rfl

/-- C9: the `config show` output depends only on the presence of the
api_key, never on its value: any two configurations differing only in the
(set) api_key value produce identical output, the set case prints the
"[set]" flag and the unset case prints "[not set]". -/
theorem config_show_hides_api_key (c : Config) (k₁ k₂ : String) :
    (handle_config_command .Show { c with api_key := some k₁ }).1 =
      (handle_config_command .Show { c with api_key := some k₂ }).1 ∧
    "api_key = [set]" ∈ (handle_config_command .Show { c with api_key := some k₁ }).1 ∧
    "api_key = [not set]" ∈ (handle_config_command .Show { c with api_key := none }).1 := by
  refine ⟨rfl, ?_, ?_⟩
  · simp [handle_config_command, configShowLines]
  · simp [handle_config_command, configShowLines]

/-- C10: the api-key check precedes the diff check in `run_generate`: with
no stored api_key the guidance is printed and the invocation ends without
fetching the staged diff, so with an unset key and an empty diff the user
sees the missing-key message, not the no-staged-changes message. -/
theorem run_generate_key_check_precedes_diff (args : Cli) (c : Config)
    (diff : String) (resp : HttpResponse) :
    run_generate args { c with api_key := none } diff resp =
      { stdoutLines := [], stderrLines := [missingKeyMessage], gitDiffCalled := false,
        networkCalls := [], exitCode := 0 } ∧
    (run_generate args { c with api_key := none } "" resp).stdoutLines = [] ∧
    noStagedChangesMessage ∉ (run_generate args { c with api_key := none } "" resp).stdoutLines ∧
    missingKeyMessage ∈ (run_generate args { c with api_key := none } "" resp).stderrLines := by
  refine ⟨rfl, rfl, ?_, ?_⟩
  · exact List.not_mem_nil _
  · exact List.mem_singleton_self _

end AiCommit
